import Mathlib

/-
Shallow embedding of the JiraAPIStart proxy server (src/server.js).

Each Express handler is translated into a pure Lean function.  The remote
service (reached through fetch / https.request) is modelled as an oracle
argument of type `Except String RemoteResp`: `.error m` is a transport-level
exception carrying message `m`, `.ok r` a delivered HTTP response.  A
response is observed by the handlers through `status`, its body text
(`text`), the result of JSON-parsing that text (`json`, `none` when parsing
fails), and selected headers.  Every outbound network request a handler
issues is recorded, in order, in the returned `List OutboundCall`.
-/

set_option linter.unusedVariables false

/-- JSON values, as exchanged between the server and the remote service. -/
inductive Json where
  | null : Json
  | bool : Bool → Json
  | num : Int → Json
  | str : String → Json
  | arr : List Json → Json
  | obj : List (String × Json) → Json
deriving Repr

/-- One character of JSON string escaping, as performed by JSON.stringify. -/
def jsonEscapeChar (c : Char) : String :=
  if c == '"' then "\\\""
  else if c == '\\' then "\\\\"
  else if c == '\n' then "\\n"
  else if c == '\r' then "\\r"
  else if c == '\t' then "\\t"
  else String.singleton c

/-- A JSON string literal with surrounding quotes (the fold is over the
string's characters, left to right). -/
def jsonQuote (s : String) : String :=
  "\"" ++ String.join (s.data.map jsonEscapeChar) ++ "\""

mutual

/-- Serialization of a JSON value, modelling JSON.stringify. -/
def Json.stringify : Json → String
  | .null => "null"
  | .bool b => cond b "true" "false"
  | .num n => toString n
  | .str s => jsonQuote s
  | .arr xs => "[" ++ stringifyItems xs ++ "]"
  | .obj kvs => "\x7b" ++ stringifyMembers kvs ++ "\x7d"

def stringifyItems : List Json → String
  | [] => ""
  | [x] => Json.stringify x
  | x :: y :: rest => Json.stringify x ++ "," ++ stringifyItems (y :: rest)

def stringifyMembers : List (String × Json) → String
  | [] => ""
  | [(k, v)] => jsonQuote k ++ ":" ++ Json.stringify v
  | (k, v) :: m :: rest =>
      jsonQuote k ++ ":" ++ Json.stringify v ++ "," ++ stringifyMembers (m :: rest)

end

/-- JavaScript truthiness of an optional string-valued request field:
`!x` is true when the field is absent or the empty string. -/
def strFalsy : Option String → Bool
  | none => true
  | some s => s == ""

/-- JavaScript falsiness of a JSON value (null, false, 0, empty string). -/
def Json.isFalsy : Json → Bool
  | .null => true
  | .bool b => !b
  | .num n => n == 0
  | .str s => s == ""
  | _ => false

/-- JavaScript property access `j.k`.  `none` means a TypeError is thrown
(base is null); `some none` means the property is `undefined`;
`some (some v)` is the property's value. -/
def Json.propAccess : Json → String → Option (Option Json)
  | .null, _ => none
  | .obj kvs, k => some (kvs.lookup k)
  | _, _ => some none

/-- JavaScript indexing `j[0]`: `some v` when defined, `none` for undefined.
On a non-empty string, indexing yields its first character as a string. -/
def jsIndex0 : Json → Option Json
  | .arr (u :: _) => some u
  | .str s => if s.isEmpty then none else some (.str (String.singleton s.front))
  | _ => none

mutual

/-- The string an element contributes to Array.prototype.join:
null becomes the empty string, nested arrays join with commas,
plain objects print as their default toString. -/
def jsJoinElem : Json → String
  | .null => ""
  | .bool b => cond b "true" "false"
  | .num n => toString n
  | .str s => s
  | .arr xs => jsJoinComma xs
  | .obj _ => "[object Object]"

def jsJoinComma : List Json → String
  | [] => ""
  | [x] => jsJoinElem x
  | x :: y :: rest => jsJoinElem x ++ "," ++ jsJoinComma (y :: rest)

end

/-- Array.prototype.join with an explicit separator. -/
def jsJoin (sep : String) (xs : List Json) : String :=
  String.intercalate sep (xs.map jsJoinElem)

/-- A single hexadecimal digit (uppercase), for percent-encoding. -/
def hexDigit (n : Nat) : Char :=
  if n < 10 then Char.ofNat (48 + n) else Char.ofNat (55 + n)

/-- Percent-encoding of one byte. -/
def percentByte (b : Nat) : String :=
  "%" ++ String.singleton (hexDigit (b / 16)) ++ String.singleton (hexDigit (b % 16))

/-- The JavaScript encodeURIComponent function: unreserved characters are
kept, every other character is percent-encoded byte by byte (UTF-8). -/
def encodeURIComponent (s : String) : String :=
  String.join (s.data.map (fun c =>
    if c.isAlphanum || c == '-' || c == '_' || c == '.' || c == '!' || c == '~' ||
       c == '*' || c.toNat == 39 || c == '(' || c == ')' then String.singleton c
    else String.join (((String.singleton c).toUTF8.toList).map
      (fun b => percentByte b.toNat))))

/-- A remote HTTP response, as the handlers observe it.  `text` is the body
text (`await response.text()` / accumulated data); `json` is the result of
JSON-parsing that text (`none` when parsing fails, in which case
`response.json()` / `JSON.parse` throws an error whose runtime message is
`parseMsg`); `contentLength`, `contentType` and `contentDisposition` are the
corresponding response headers (`none` when absent). -/
structure RemoteResp where
  status : Nat
  text : String := ""
  json : Option Json := none
  contentLength : Option String := none
  contentType : Option String := none
  contentDisposition : Option String := none
  parseMsg : String := "Unexpected token in JSON"
deriving Repr

/-- fetch's response.ok: status in the 2xx range. -/
def RemoteResp.ok (r : RemoteResp) : Bool := 200 ≤ r.status && r.status < 300

/-- What the handler sends back to its caller: a status code, an optional
JSON body (res.json), an optional raw body (res.send with bytes; `none`
together with `body = none` models a bodiless `res.send()`), and any
explicitly set response headers. -/
structure HttpReply where
  status : Nat
  body : Option Json := none
  rawBody : Option String := none
  headers : List (String × String) := []
deriving Repr

/-- One outbound network request issued by a handler.  `body` is the value
passed to JSON.stringify as the request body (`none` for bodiless requests
and for the multipart attachment stream). -/
structure OutboundCall where
  method : String
  url : String
  body : Option Json := none
deriving Repr

/-- The multer-supplied description of an uploaded file (req.file). -/
structure FileRec where
  path : String
  originalname : String
  mimetype : String
  size : Nat
deriving Repr

/-- Stands for the runtime TypeError message produced when a handler
dereferences undefined or null; the code only relays such a message
(as `error.message`), never inspects it. -/
def typeErrorMsg : String := "Cannot read properties of undefined"

/-- A one-field error object, as in res.json with an error key. -/
def jerr (msg : String) : Json := .obj [("error", .str msg)]

/-- The 401 reply shared by every body-authenticated handler. -/
def reply401 : HttpReply := { status := 401, body := some (jerr "Authorization required") }

/-- The fixed remote host hard-coded into every named operation. -/
def mmn : String := "https://mmn-service.atlassian.net"

/-- The Atlassian document-format envelope built by the add-comment handler
around the caller's plain-text comment (an undefined comment field is
dropped by JSON.stringify). -/
def addCommentDoc (comment : Option String) : Json :=
  .obj [("body", .obj [("type", .str "doc"), ("version", .num 1),
    ("content", .arr [.obj [("type", .str "paragraph"),
      ("content", .arr [.obj (("type", .str "text") ::
        (match comment with | some c => [("text", .str c)] | none => []))])]])])]

/-- POST /add-comment. -/
def addComment (authHeader : Option String) (issueKey : String) (comment : Option String)
    (remote : Except String RemoteResp) : HttpReply × List OutboundCall :=
  if strFalsy authHeader then (reply401, [])
  else
    let call : OutboundCall :=
      { method := "POST",
        url := mmn ++ ("/rest/api/3/issue/" ++ issueKey ++ "/comment"),
        body := some (addCommentDoc comment) }
    match remote with
    | .error e => ({ status := 500, body := some (jerr e) }, [call])
    | .ok r =>
      if r.ok then
        match r.json with
        | some d => ({ status := 200, body := some d }, [call])
        | none => ({ status := 500, body := some (jerr r.parseMsg) }, [call])
      else ({ status := r.status, body := some (jerr r.text) }, [call])

/-- POST /add-attachment.  The third component of the result records whether
the multer temporary file still exists on disk after the handler returns
(it exists initially exactly when a file was uploaded). -/
def addAttachment (authHeader : Option String) (file : Option FileRec) (issueKey : String)
    (remote : Except String RemoteResp) : HttpReply × List OutboundCall × Bool :=
  if strFalsy authHeader then (reply401, [], file.isSome)
  else
    match file with
    | none => ({ status := 400, body := some (jerr "No file uploaded") }, [], false)
    | some _ =>
      let call : OutboundCall :=
        { method := "POST",
          url := mmn ++ ("/rest/api/3/issue/" ++ issueKey ++ "/attachments") }
      match remote with
      | .error e => ({ status := 500, body := some (jerr e) }, [call], false)
      | .ok r =>
        let responseData : Json :=
          if r.text == "" then .obj []
          else match r.json with
            | some j => j
            | none => .obj [("rawResponse", .str r.text)]
        if 200 ≤ r.status && r.status < 300 then
          ({ status := 200, body := some responseData }, [call], false)
        else
          ({ status := r.status, body := some (.obj [("error",
            .str (match responseData with | .str s => s | j => Json.stringify j))]) },
           [call], false)

/-- POST /list-attachments. -/
def listAttachments (authHeader : Option String) (issueKey : String)
    (remote : Except String RemoteResp) : HttpReply × List OutboundCall :=
  if strFalsy authHeader then (reply401, [])
  else
    let call : OutboundCall :=
      { method := "GET",
        url := mmn ++ ("/rest/api/3/issue/" ++ issueKey ++ "?fields=attachment") }
    match remote with
    | .error e => ({ status := 500, body := some (jerr e) }, [call])
    | .ok r =>
      if r.ok then
        match r.json with
        | none => ({ status := 500, body := some (jerr r.parseMsg) }, [call])
        | some d =>
          match d.propAccess "fields" with
          | none => ({ status := 500, body := some (jerr typeErrorMsg) }, [call])
          | some fieldsV =>
            let att : Option Json :=
              match fieldsV with
              | some (.obj kvs) => kvs.lookup "attachment"
              | _ => none
            let attachments : Json :=
              match att with
              | some a => if a.isFalsy then .arr [] else a
              | none => .arr []
            ({ status := 200, body := some attachments }, [call])
      else ({ status := r.status, body := some (jerr r.text) }, [call])

/-- GET /download-attachment. -/
def downloadAttachment (auth : Option String) (url : Option String)
    (remote : Except String RemoteResp) : HttpReply × List OutboundCall :=
  if strFalsy auth then (reply401, [])
  else if strFalsy url then ({ status := 400, body := some (jerr "URL required") }, [])
  else
    let call : OutboundCall := { method := "GET", url := url.getD "" }
    match remote with
    | .error e => ({ status := 500, body := some (jerr e) }, [call])
    | .ok r =>
      if r.ok then
        let hs :=
          (match r.contentType with | some ct => [("Content-Type", ct)] | none => []) ++
          (match r.contentDisposition with | some cd => [("Content-Disposition", cd)] | none => [])
        ({ status := 200, rawBody := some r.text, headers := hs }, [call])
      else ({ status := r.status, body := some (jerr "Failed to download attachment") }, [call])

/-- A field of a res.json object literal whose value may be undefined
(JSON.stringify drops undefined-valued keys). -/
def optJField (k : String) : Option Json → List (String × Json)
  | some v => [(k, v)]
  | none => []

/-- POST /get-issue-reporter. -/
def getIssueReporter (authHeader : Option String) (issueKey : String)
    (remote : Except String RemoteResp) : HttpReply × List OutboundCall :=
  if strFalsy authHeader then (reply401, [])
  else
    let call : OutboundCall :=
      { method := "GET",
        url := mmn ++ ("/rest/api/3/issue/" ++ issueKey ++ "?fields=reporter,assignee,creator,summary") }
    match remote with
    | .error e => ({ status := 500, body := some (jerr e) }, [call])
    | .ok r =>
      if r.ok then
        match r.json with
        | none => ({ status := 500, body := some (jerr r.parseMsg) }, [call])
        | some d =>
          match d.propAccess "key", d.propAccess "fields" with
          | some keyV, some (some fieldsV) =>
            (match fieldsV.propAccess "summary", fieldsV.propAccess "reporter",
                   fieldsV.propAccess "assignee", fieldsV.propAccess "creator" with
             | some sV, some rV, some aV, some cV =>
               ({ status := 200, body := some (.obj (
                 optJField "key" keyV ++ optJField "summary" sV ++ optJField "reporter" rV ++
                 optJField "assignee" aV ++ optJField "creator" cV)) }, [call])
             | _, _, _, _ => ({ status := 500, body := some (jerr typeErrorMsg) }, [call]))
          | _, _ => ({ status := 500, body := some (jerr typeErrorMsg) }, [call])
      else ({ status := r.status, body := some (jerr r.text) }, [call])

/-- The user-search call shared by /update-issue-reporter and
/send-notification. -/
def userSearchCall (email : String) : OutboundCall :=
  { method := "GET",
    url := mmn ++ ("/rest/api/3/user/search?query=" ++ encodeURIComponent email) }

/-- The JavaScript check `users.length === 0` (only arrays reach it with a
numeric length; the empty string is already falsy). -/
def usersLenZero : Json → Bool
  | .arr xs => xs.isEmpty
  | _ => false

/-- The JavaScript expression `users[0].accountId`: `none` means a TypeError
is thrown, `some aid` the (possibly undefined) account id. -/
def usersFirstAccountId (users : Json) : Option (Option Json) :=
  match jsIndex0 users with
  | none => none
  | some u => u.propAccess "accountId"

/-- The chain `j.errorMessages?.join(sep)`: outer `none` when it throws
(null base or .join called on a non-array), otherwise the optional joined
string (`some none` when the chain short-circuits to undefined). -/
def jsOptChainJoin (j : Json) (key sep : String) : Option (Option String) :=
  match j.propAccess key with
  | none => none
  | some none => some none
  | some (some .null) => some none
  | some (some (.arr xs)) => some (some (jsJoin sep xs))
  | some (some _) => none

/-- The error-message extraction of the reporter-update reject branch:
`errorData.errorMessages?.join(', ') || errorData.errors?.reporter ||
errorText`, with the surrounding try/catch falling back to the raw text. -/
def updateErrMsg (text : String) (j? : Option Json) : Json :=
  match j? with
  | none => .str text
  | some j =>
    match jsOptChainJoin j "errorMessages" ", " with
    | none => .str text
    | some joinRes =>
      let first : Option Json :=
        match joinRes with
        | some s => if s == "" then none else some (.str s)
        | none => none
      match first with
      | some v => v
      | none =>
        match j.propAccess "errors" with
        | none => .str text
        | some errs? =>
          let rep? : Option Json :=
            match errs? with
            | none => none
            | some errs =>
              match errs.propAccess "reporter" with
              | none => none
              | some v? => v?
          match rep? with
          | some v => if v.isFalsy then .str text else v
          | none => .str text

/-- The issue-reporter update body
`{fields: {reporter: {accountId}}}` (undefined dropped by stringify). -/
def reporterUpdateBody (accountId : Option Json) : Json :=
  .obj [("fields", .obj [("reporter",
    .obj (match accountId with | some v => [("accountId", v)] | none => []))])]

/-- POST /update-issue-reporter: search for the user by email, then (only on
success of that step) update the issue's reporter field. -/
def updateIssueReporter (authHeader : Option String) (issueKey : String)
    (reporterEmail : Option String)
    (searchRemote updateRemote : Except String RemoteResp) : HttpReply × List OutboundCall :=
  if strFalsy authHeader then (reply401, [])
  else if strFalsy reporterEmail then
    ({ status := 400, body := some (jerr "Reporter email required") }, [])
  else
    let sCall := userSearchCall (reporterEmail.getD "")
    match searchRemote with
    | .error e => ({ status := 500, body := some (jerr e) }, [sCall])
    | .ok sr =>
      if !sr.ok then
        ({ status := 400, body := some (jerr "User not found with that email") }, [sCall])
      else
        match sr.json with
        | none => ({ status := 500, body := some (jerr sr.parseMsg) }, [sCall])
        | some users =>
          if users.isFalsy || usersLenZero users then
            ({ status := 400, body := some (jerr "No user found with that email address") }, [sCall])
          else
            match usersFirstAccountId users with
            | none => ({ status := 500, body := some (jerr typeErrorMsg) }, [sCall])
            | some accountId =>
              let uCall : OutboundCall :=
                { method := "PUT",
                  url := mmn ++ ("/rest/api/3/issue/" ++ issueKey),
                  body := some (reporterUpdateBody accountId) }
              match updateRemote with
              | .error e => ({ status := 500, body := some (jerr e) }, [sCall, uCall])
              | .ok ur =>
                if ur.ok || ur.status == 204 then
                  ({ status := 200, body := some (.obj (
                    [("success", .bool true),
                     ("message", .str "Reporter updated successfully")] ++
                    (match accountId with | some v => [("accountId", v)] | none => []) ++
                    [("email", .str (reporterEmail.getD ""))])) }, [sCall, uCall])
                else
                  ({ status := ur.status,
                     body := some (.obj [("error", updateErrMsg ur.text ur.json)]) },
                   [sCall, uCall])

/-- The check `foundUsers && foundUsers.length > 0` of the notification
recipient-resolution loop. -/
def jsLenPos : Json → Bool
  | .arr xs => !xs.isEmpty
  | .str s => !(s == "")
  | _ => false

/-- The per-email user-search loop of /send-notification: each email is
paired with its remote outcome; every search failure (transport error,
non-2xx, parse failure, or a TypeError during extraction) is swallowed by
the per-iteration try/catch and the email is skipped. -/
def searchUsersLoop (pairs : List (String × Except String RemoteResp)) :
    List Json × List OutboundCall :=
  match pairs with
  | [] => ([], [])
  | (email, resp) :: rest =>
    let call := userSearchCall email
    let found : List Json :=
      match resp with
      | .error _ => []
      | .ok r =>
        if r.ok then
          match r.json with
          | none => []
          | some j =>
            if jsLenPos j then
              match usersFirstAccountId j with
              | none => []
              | some aid =>
                [.obj (match aid with | some v => [("accountId", v)] | none => [])]
            else []
        else []
    let rec' := searchUsersLoop rest
    (found ++ rec'.1, call :: rec'.2)

/-- The error-message extraction of the notification reject branch.  Note
the source's operator precedence: `a?.join(', ') || b ? JSON.stringify(b) :
text` groups as `(a?.join || b) ? JSON.stringify(b) : text`, and
JSON.stringify of an undefined `errors` field is itself undefined (so the
error key is dropped from the reply).  `none` models that undefined. -/
def notifyErrMsg (text : String) (j? : Option Json) : Option Json :=
  match j? with
  | none => some (.str text)
  | some j =>
    match jsOptChainJoin j "errorMessages" ", " with
    | none => some (.str text)
    | some joinRes =>
      let joinTruthy := match joinRes with | some s => !(s == "") | none => false
      match j.propAccess "errors" with
      | none => some (.str text)
      | some errs? =>
        let errsTruthy := match errs? with | some e => !e.isFalsy | none => false
        if joinTruthy || errsTruthy then
          (errs?.map Json.stringify).map Json.str
        else some (.str text)

/-- POST /send-notification: resolve additional recipient emails, send the
notify call, and on its success attempt a best-effort history comment. -/
def sendNotification (authHeader : Option String) (issueKey : String)
    (subject message : Option String) (notifyReporter notifyAssignee : Bool)
    (additionalEmails : List (String × Except String RemoteResp))
    (notifyRemote commentRemote : Except String RemoteResp) : HttpReply × List OutboundCall :=
  if strFalsy authHeader then (reply401, [])
  else if strFalsy subject || strFalsy message then
    ({ status := 400, body := some (jerr "Subject and message are required") }, [])
  else
    let s := subject.getD ""
    let m := message.getD ""
    let resolved := searchUsersLoop additionalEmails
    let users := resolved.1
    let searchCalls := resolved.2
    let toObj : Json := .obj (
      (if notifyReporter then [("reporter", .bool true)] else []) ++
      (if notifyAssignee then [("assignee", .bool true)] else []) ++
      (if !users.isEmpty then [("users", .arr users)] else []))
    let payload : Json := .obj
      [("subject", .str s), ("textBody", .str m),
       ("htmlBody", .str (m.replace "\n" "<br>")), ("to", toObj)]
    let nCall : OutboundCall :=
      { method := "POST",
        url := mmn ++ ("/rest/api/3/issue/" ++ issueKey ++ "/notify"),
        body := some payload }
    match notifyRemote with
    | .error e => ({ status := 500, body := some (jerr e) }, searchCalls ++ [nCall])
    | .ok nr =>
      if nr.ok || nr.status == 204 then
        let cPayload : Json := .obj [("body", .obj
          [("type", .str "doc"), ("version", .num 1),
           ("content", .arr [.obj [("type", .str "paragraph"),
             ("content", .arr [.obj [("type", .str "text"),
               ("text", .str ("📧 Notification sent: " ++ s ++ "\n\n" ++ m))]])]])])]
        let cCall : OutboundCall :=
          { method := "POST",
            url := mmn ++ ("/rest/api/3/issue/" ++ issueKey ++ "/comment"),
            body := some cPayload }
        match commentRemote with
        | .error _ =>
          ({ status := 200, body := some (.obj
            [("success", .bool true),
             ("message", .str "Notification sent but failed to save to issue history"),
             ("warning", .str "Comment could not be added")]) },
           searchCalls ++ [nCall, cCall])
        | .ok cr =>
          if cr.ok then
            ({ status := 200, body := some (.obj
              [("success", .bool true),
               ("message", .str "Notification sent and saved to issue history")]) },
             searchCalls ++ [nCall, cCall])
          else
            ({ status := 200, body := some (.obj
              [("success", .bool true),
               ("message", .str "Notification sent but failed to save to issue history"),
               ("warning", .str "Comment could not be added")]) },
             searchCalls ++ [nCall, cCall])
      else
        ({ status := nr.status, body := some (.obj
          (match notifyErrMsg nr.text nr.json with
           | some v => [("error", v)]
           | none => [])) },
         searchCalls ++ [nCall])

/-- POST /execute-transition. -/
def executeTransition (authHeader : Option String) (issueKey : String)
    (transitionId : Option String)
    (remote : Except String RemoteResp) : HttpReply × List OutboundCall :=
  if strFalsy authHeader then (reply401, [])
  else
    let body : Json := .obj [("transition",
      .obj (match transitionId with | some t => [("id", .str t)] | none => []))]
    let call : OutboundCall :=
      { method := "POST",
        url := mmn ++ ("/rest/api/3/issue/" ++ issueKey ++ "/transitions"),
        body := some body }
    match remote with
    | .error e => ({ status := 500, body := some (jerr e) }, [call])
    | .ok r =>
      if r.ok || r.status == 204 then
        ({ status := 200, body := some (.obj [("success", .bool true)]) }, [call])
      else ({ status := r.status, body := some (jerr r.text) }, [call])

/-- The service-desk-id lookup call of /create-issue (fetch without an
explicit method defaults to GET). -/
def sdLookupCall (projectKey : String) : OutboundCall :=
  { method := "GET", url := mmn ++ ("/rest/servicedeskapi/servicedesk/" ++ projectKey) }

/-- An optional string-valued field of a request-body object literal
(undefined dropped by JSON.stringify). -/
def optStrField (k : String) : Option String → List (String × Json)
  | some v => [(k, .str v)]
  | none => []

/-- POST /create-issue: for project type "servicedesk", first look up the
service-desk id, then create a request; otherwise create a standard issue
directly. -/
def createIssue (authHeader : Option String) (projectKey : String)
    (projectType requestTypeId issueType summary description : Option String)
    (sdRemote createRemote : Except String RemoteResp) : HttpReply × List OutboundCall :=
  if strFalsy authHeader then (reply401, [])
  else if projectType == some "servicedesk" then
    let sCall := sdLookupCall projectKey
    match sdRemote with
    | .error e => ({ status := 500, body := some (jerr e) }, [sCall])
    | .ok sd =>
      if !sd.ok then ({ status := 400, body := some (jerr "Service desk not found") }, [sCall])
      else
        match sd.json with
        | none => ({ status := 500, body := some (jerr sd.parseMsg) }, [sCall])
        | some sdData =>
          match sdData.propAccess "id" with
          | none => ({ status := 500, body := some (jerr typeErrorMsg) }, [sCall])
          | some sdId =>
            let body : Json := .obj (
              (match sdId with | some v => [("serviceDeskId", v)] | none => []) ++
              optStrField "requestTypeId" requestTypeId ++
              [("requestFieldValues", .obj
                (optStrField "summary" summary ++ optStrField "description" description))])
            let cCall : OutboundCall :=
              { method := "POST", url := mmn ++ "/rest/servicedeskapi/request",
                body := some body }
            match createRemote with
            | .error e => ({ status := 500, body := some (jerr e) }, [sCall, cCall])
            | .ok r =>
              if r.ok then
                match r.json with
                | some d => ({ status := 200, body := some d }, [sCall, cCall])
                | none => ({ status := 500, body := some (jerr r.parseMsg) }, [sCall, cCall])
              else ({ status := r.status, body := some (jerr r.text) }, [sCall, cCall])
  else
    let body : Json := .obj [("fields", .obj (
      [("project", .obj [("key", .str projectKey)])] ++
      optStrField "summary" summary ++
      [("description", .obj [("type", .str "doc"), ("version", .num 1),
        ("content", .arr [.obj [("type", .str "paragraph"),
          ("content", .arr [.obj (("type", .str "text") :: optStrField "text" description)])]])])] ++
      [("issuetype", .obj (optStrField "name" issueType))]))]
    let cCall : OutboundCall :=
      { method := "POST", url := mmn ++ "/rest/api/3/issue", body := some body }
    match createRemote with
    | .error e => ({ status := 500, body := some (jerr e) }, [cCall])
    | .ok r =>
      if r.ok then
        match r.json with
        | some d => ({ status := 200, body := some d }, [cCall])
        | none => ({ status := 500, body := some (jerr r.parseMsg) }, [cCall])
      else ({ status := r.status, body := some (jerr r.text) }, [cCall])

/-- Replacement of the first occurrence only, as String.prototype.replace
with a plain-string pattern. -/
def replaceFirst (s pat rep : String) : String :=
  match s.splitOn pat with
  | [] => s
  | [_] => s
  | x :: y :: rest => x ++ rep ++ String.intercalate pat (y :: rest)

/-- The configured remote base URL: the JIRA_DOMAIN environment value with
its placeholder fallback. -/
def jiraDomain (env : Option String) : String :=
  env.getD "https://your-domain.atlassian.net"

/-- The generic proxy, app.all on /api/* — any method, any path below
/api. -/
def apiProxy (baseUrl : String) (method reqPath : String) (reqBody : Json)
    (authHeader : Option String)
    (remote : Except String RemoteResp) : HttpReply × List OutboundCall :=
  let jiraUrl := baseUrl ++ replaceFirst reqPath "/api" ""
  if strFalsy authHeader then
    ({ status := 401, body := some (jerr "Authorization header required") }, [])
  else
    let call : OutboundCall :=
      { method := method, url := jiraUrl,
        body := if method == "POST" || method == "PUT" then some reqBody else none }
    match remote with
    | .error e =>
      ({ status := 500,
         body := some (.obj [("error", .str "Proxy error"), ("message", .str e)]) }, [call])
    | .ok r =>
      if r.status == 204 || r.contentLength == some "0" then
        ({ status := r.status }, [call])
      else if !(r.text == "") then
        match r.json with
        | some d => ({ status := r.status, body := some d }, [call])
        | none =>
          ({ status := r.status, body := some (.obj
            [("message", .str r.text), ("errorMessages", .arr [.str r.text])]) }, [call])
      else
        ({ status := r.status }, [call])

/-- Whether `small` is a prefix of `big`, on character lists. -/
def listHasPre : List Char → List Char → Bool
  | [], _ => true
  | _ :: _, [] => false
  | a :: as, b :: bs => a == b && listHasPre as bs

/-- Whether `needle` occurs somewhere in `hay`, on character lists. -/
def listOccurs (needle : List Char) : List Char → Bool
  | [] => needle.isEmpty
  | b :: tl => listHasPre needle (b :: tl) || listOccurs needle tl

/-- Whether `needle` occurs as a substring of `hay`. -/
def strOccurs (needle hay : String) : Bool :=
  listOccurs needle.data hay.data

lemma strFalsy_some_ne {a : String} (ha : a ≠ "") : strFalsy (some a) = false := by
  simp [strFalsy, ha]

lemma not_ok_prop {r : RemoteResp} (h : r.ok = false) :
    ¬(200 ≤ r.status ∧ r.status < 300) := by
  simp [RemoteResp.ok] at h
  omega

lemma not_ok_ne204 {r : RemoteResp} (h : r.ok = false) : (r.status == 204) = false := by
  by_contra hc
  have h204 : r.status = 204 := by simpa using hc
  simp [RemoteResp.ok, h204] at h

/-- C1: for every exposed operation, a request that supplies no credential
(absent authHeader body field, absent auth query parameter, or absent
Authorization header) is answered with status 401 and the handler issues
zero outbound remote calls. -/
theorem missing_credential_fails_closed :
    (∀ key c remote, (addComment none key c remote).1.status = 401 ∧
      (addComment none key c remote).2 = []) ∧
    (∀ file key remote, (addAttachment none file key remote).1.status = 401 ∧
      (addAttachment none file key remote).2.1 = []) ∧
    (∀ key remote, (listAttachments none key remote).1.status = 401 ∧
      (listAttachments none key remote).2 = []) ∧
    (∀ url remote, (downloadAttachment none url remote).1.status = 401 ∧
      (downloadAttachment none url remote).2 = []) ∧
    (∀ key remote, (getIssueReporter none key remote).1.status = 401 ∧
      (getIssueReporter none key remote).2 = []) ∧
    (∀ key em sres ures, (updateIssueReporter none key em sres ures).1.status = 401 ∧
      (updateIssueReporter none key em sres ures).2 = []) ∧
    (∀ key s m fr fa ae nres cres,
      (sendNotification none key s m fr fa ae nres cres).1.status = 401 ∧
      (sendNotification none key s m fr fa ae nres cres).2 = []) ∧
    (∀ key t remote, (executeTransition none key t remote).1.status = 401 ∧
      (executeTransition none key t remote).2 = []) ∧
    (∀ pk pt rt it su de sres cres,
      (createIssue none pk pt rt it su de sres cres).1.status = 401 ∧
      (createIssue none pk pt rt it su de sres cres).2 = []) ∧
    (∀ base method path body remote,
      (apiProxy base method path body none remote).1.status = 401 ∧
      (apiProxy base method path body none remote).2 = []) := by
  repeat' apply And.intro
  all_goals intros
  all_goals exact ⟨rfl, rfl⟩

/-- C2 counterexample: a file was uploaded (the temporary file exists when
the handler runs) but the credential is missing; the handler returns 401
via the early return, which performs no cleanup, so the temporary file
still exists after the operation completes. -/
theorem attachment_cleanup_counterexample :
    (addAttachment none
      (some { path := "uploads/tmp1", originalname := "a.txt",
              mimetype := "text/plain", size := 3 })
      "KEY-1" (.ok { status := 200 })).2.2 = true ∧
    (addAttachment none
      (some { path := "uploads/tmp1", originalname := "a.txt",
              mimetype := "text/plain", size := 3 })
      "KEY-1" (.ok { status := 200 })).1.status = 401 :=
  ⟨rfl, rfl⟩

/-- C2 amended: whenever both a credential and a file are present, the
temporary uploaded file no longer exists after the operation completes, on
the remote-success, remote-non-success and thrown-transport-exception exit
paths; on the missing-credential early return, however, the file is not
deleted and still exists. -/
theorem attachment_cleanup_amended (a key : String) (f : FileRec)
    (remote : Except String RemoteResp) (ha : a ≠ "") :
    (addAttachment (some a) (some f) key remote).2.2 = false := by
  cases remote with
  | error e => simp [addAttachment, strFalsy_some_ne ha]
  | ok r =>
    simp only [addAttachment, strFalsy_some_ne ha, Bool.false_eq_true, if_false]
    split <;> rfl

theorem attachment_cleanup_amended_witness :
    (addAttachment (some "Basic abc")
      (some { path := "uploads/t2", originalname := "b.txt",
              mimetype := "text/plain", size := 1 })
      "KEY-2" (.error "socket hang up")).2.2 = false :=
  attachment_cleanup_amended "Basic abc" "KEY-2"
    { path := "uploads/t2", originalname := "b.txt", mimetype := "text/plain", size := 1 }
    (.error "socket hang up") (by decide)

/-- C3 counterexample: the download-attachment operation, on a remote 403
whose body text is "quota exceeded", relays the remote's status code but
replaces the remote's own message with the fixed text
"Failed to download attachment"; the remote's text appears nowhere in the
reply, so it is not relayed verbatim. -/
theorem remote_error_relay_counterexample :
    (downloadAttachment (some "Basic abc") (some "https://files.example/att/10001")
      (.ok { status := 403, text := "quota exceeded" })).1 =
      { status := 403, body := some (jerr "Failed to download attachment") } ∧
    strOccurs "quota exceeded"
      (Json.stringify (jerr "Failed to download attachment")) = false := by
  refine ⟨rfl, ?_⟩
  have h1 : Json.stringify (jerr "Failed to download attachment") =
      "\x7b" ++ (jsonQuote "error" ++ ":" ++
        jsonQuote "Failed to download attachment") ++ "\x7d" := by
    simp [jerr, Json.stringify, stringifyMembers]
  rw [h1]
  rfl

/-- C3 amended: when the remote answers with a non-success status, every
operation — the generic /api/* proxy included — relays the remote's own
status code, and every operation except download-attachment also carries
the remote's own message/body: the proxy passes a parseable body through as
parsed JSON and wraps an unparseable one as a message/errorMessages object,
the named operations wrap the text as an error message (or — for the
reporter-update and notification operations when the error text is not
parseable JSON — relay the raw text); download-attachment instead returns
the fixed message "Failed to download attachment", dropping the remote's
body.  (For the proxy conjuncts, a real non-empty body excludes the 204 and
content-length-0 header cases, which fetch delivers bodiless.) -/
theorem remote_error_relay_amended (a key urlStr : String) (ha : a ≠ "")
    (hurl : urlStr ≠ "") (c t : Option String) (r : RemoteResp) (hok : r.ok = false)
    (hj : r.json = none) (f : FileRec) (htext : r.text ≠ "") :
    (addComment (some a) key c (.ok r)).1 =
      { status := r.status, body := some (jerr r.text) } ∧
    (listAttachments (some a) key (.ok r)).1 =
      { status := r.status, body := some (jerr r.text) } ∧
    (getIssueReporter (some a) key (.ok r)).1 =
      { status := r.status, body := some (jerr r.text) } ∧
    (executeTransition (some a) key t (.ok r)).1 =
      { status := r.status, body := some (jerr r.text) } ∧
    (createIssue (some a) key none none none none none (.ok r) (.ok r)).1 =
      { status := r.status, body := some (jerr r.text) } ∧
    (addAttachment (some a) (some f) key (.ok r)).1 =
      { status := r.status, body := some (.obj [("error",
        .str (Json.stringify (.obj [("rawResponse", .str r.text)])))]) } ∧
    (updateIssueReporter (some a) key (some "user.name")
      (.ok { status := 200, json := some (.arr [.obj [("accountId", .str "acc1")]]) })
      (.ok r)).1 =
      { status := r.status, body := some (jerr r.text) } ∧
    (sendNotification (some a) key (some "s") (some "m") false false [] (.ok r)
      (.ok r)).1 =
      { status := r.status, body := some (jerr r.text) } ∧
    (downloadAttachment (some a) (some urlStr) (.ok r)).1 =
      { status := r.status, body := some (jerr "Failed to download attachment") } ∧
    (∀ base method path bd (rp : RemoteResp) (d : Json), rp.ok = false →
      rp.status ≠ 204 → rp.contentLength ≠ some "0" → rp.text ≠ "" →
      rp.json = some d →
      (apiProxy base method path bd (some a) (.ok rp)).1 =
        { status := rp.status, body := some d }) ∧
    (∀ base method path bd (rp : RemoteResp), rp.ok = false →
      rp.status ≠ 204 → rp.contentLength ≠ some "0" → rp.text ≠ "" →
      rp.json = none →
      (apiProxy base method path bd (some a) (.ok rp)).1 =
        { status := rp.status, body := some (.obj
          [("message", .str rp.text), ("errorMessages", .arr [.str rp.text])]) }) := by
  have h204 := not_ok_ne204 hok
  have haf := strFalsy_some_ne ha
  refine ⟨?_, ?_, ?_, ?_, ?_, ?_, ?_, ?_, ?_, ?_, ?_⟩
  · simp [addComment, haf, hok]
  · simp [listAttachments, haf, hok]
  · simp [getIssueReporter, haf, hok]
  · simp [executeTransition, haf, hok, h204]
  · simp [createIssue, haf, hok]
  · have hr : (200 ≤ r.status && r.status < 300) = false := hok
    simp [addAttachment, haf, hr, htext, hj]
  · simp [updateIssueReporter, ha, usersFirstAccountId, jsIndex0, Json.propAccess,
      usersLenZero, Json.isFalsy, hok, h204, updateErrMsg, hj, strFalsy, jerr,
      RemoteResp.ok, not_ok_prop hok]
  · simp [sendNotification, ha, searchUsersLoop, hok, h204, notifyErrMsg, hj,
      strFalsy, jerr, not_ok_prop hok]
  · simp [downloadAttachment, haf, hok, strFalsy_some_ne hurl]
  · intro base method path bd rp d _ hp204 hpcl hptext hpj
    simp [apiProxy, haf, hp204, hpcl, hptext, hpj]
  · intro base method path bd rp _ hp204 hpcl hptext hpj
    simp [apiProxy, haf, hp204, hpcl, hptext, hpj]

theorem remote_error_relay_amended_witness :
    (addComment (some "Basic abc") "KEY-3" (some "hi")
      (.ok { status := 404, text := "NF" })).1 =
      { status := 404, body := some (jerr "NF") } :=
  (remote_error_relay_amended "Basic abc" "KEY-3" "https://files.example/a"
    (by decide) (by decide) (some "hi") (some "7") { status := 404, text := "NF" }
    (by decide) rfl { path := "p", originalname := "o", mimetype := "m", size := 0 }
    (by decide)).1

/-- C4 counterexample: a user search returning two (ambiguous) matches does
not make the operation fail with a client error: the handler proceeds with
the first match, issues the update call (two outbound calls in total) and
reports success. -/
theorem reporter_update_counterexample :
    (updateIssueReporter (some "Basic abc") "KEY-4" (some "dup.user")
      (.ok { status := 200, json := some (.arr
        [.obj [("accountId", .str "acc-1")], .obj [("accountId", .str "acc-2")]]) })
      (.ok { status := 204 })).1.status = 200 ∧
    ((updateIssueReporter (some "Basic abc") "KEY-4" (some "dup.user")
      (.ok { status := 200, json := some (.arr
        [.obj [("accountId", .str "acc-1")], .obj [("accountId", .str "acc-2")]]) })
      (.ok { status := 204 })).2).length = 2 :=
  ⟨rfl, rfl⟩

/-- C4 amended: the update-issue-reporter operation is a two-step sequence;
step (a) fails with a client error (400) when the user search is rejected
or yields zero matches, and then the update call is never issued; when the
search yields at least one match (including ambiguous, more-than-one-match
results) the handler takes the first match's account identifier and the
update call is issued as the second outbound call. -/
theorem reporter_update_short_circuit (a key em : String) (ha : a ≠ "") (hem : em ≠ "")
    (sres : RemoteResp) (ures : Except String RemoteResp) :
    (sres.ok = false →
      updateIssueReporter (some a) key (some em) (.ok sres) ures =
        ({ status := 400, body := some (jerr "User not found with that email") },
         [userSearchCall em])) ∧
    (sres.ok = true → sres.json = some (.arr []) →
      updateIssueReporter (some a) key (some em) (.ok sres) ures =
        ({ status := 400, body := some (jerr "No user found with that email address") },
         [userSearchCall em])) ∧
    (∀ kvs rest, sres.ok = true → sres.json = some (.arr (.obj kvs :: rest)) →
      (updateIssueReporter (some a) key (some em) (.ok sres) ures).2 =
        [userSearchCall em,
         { method := "PUT", url := mmn ++ ("/rest/api/3/issue/" ++ key),
           body := some (reporterUpdateBody (kvs.lookup "accountId")) }]) := by
  have haf := strFalsy_some_ne ha
  have hef := strFalsy_some_ne hem
  refine ⟨?_, ?_, ?_⟩
  · intro hok
    simp [updateIssueReporter, haf, hef, hok]
  · intro hok hj
    simp [updateIssueReporter, haf, hef, hok, hj, usersLenZero, Json.isFalsy]
  · intro kvs rest hok hj
    simp [updateIssueReporter, haf, hef, hok, hj, usersLenZero, Json.isFalsy,
      usersFirstAccountId, jsIndex0, Json.propAccess]
    cases ures with
    | error e => rfl
    | ok ur => simp [apply_ite Prod.snd]

theorem reporter_update_short_circuit_witness :
    updateIssueReporter (some "Basic abc") "KEY-5" (some "ghost.user")
      (.ok { status := 200, json := some (.arr []) }) (.ok { status := 204 }) =
      ({ status := 400, body := some (jerr "No user found with that email address") },
       [userSearchCall "ghost.user"]) :=
  (reporter_update_short_circuit "Basic abc" "KEY-5" "ghost.user" (by decide) (by decide)
    { status := 200, json := some (.arr []) } (.ok { status := 204 })).2.1
    (by decide) rfl

/-- C5: if the notify call succeeds (2xx, or status 204) but the follow-up
issue-history comment call fails or throws, the operation still returns an
overall success result — status 200 with success true — that includes a
warning field; the comment failure never turns the result into a failure. -/
theorem notify_soft_warning (a key s m : String) (ha : a ≠ "") (hs : s ≠ "") (hm : m ≠ "")
    (fr fa : Bool) (emails : List (String × Except String RemoteResp))
    (nr : RemoteResp) (hnok : nr.ok = true ∨ nr.status = 204)
    (cres : Except String RemoteResp)
    (hcfail : (∃ e, cres = .error e) ∨ (∃ cr, cres = .ok cr ∧ cr.ok = false)) :
    (sendNotification (some a) key (some s) (some m) fr fa emails (.ok nr) cres).1 =
      { status := 200, body := some (.obj
        [("success", .bool true),
         ("message", .str "Notification sent but failed to save to issue history"),
         ("warning", .str "Comment could not be added")]) } := by
  have haf := strFalsy_some_ne ha
  have hsf := strFalsy_some_ne hs
  have hmf := strFalsy_some_ne hm
  have hn : (nr.ok || nr.status == 204) = true := by
    rcases hnok with h | h <;> simp [h]
  rcases hcfail with ⟨e, rfl⟩ | ⟨cr, rfl, hcr⟩
  · simp [sendNotification, haf, hsf, hmf, hn]
  · simp [sendNotification, haf, hsf, hmf, hn, hcr]

theorem notify_soft_warning_witness :
    (sendNotification (some "Basic abc") "KEY-6" (some "Subj") (some "Msg") true false []
      (.ok { status := 204 }) (.ok { status := 500, text := "oops" })).1 =
      { status := 200, body := some (.obj
        [("success", .bool true),
         ("message", .str "Notification sent but failed to save to issue history"),
         ("warning", .str "Comment could not be added")]) } :=
  notify_soft_warning "Basic abc" "KEY-6" "Subj" "Msg" (by decide) (by decide) (by decide)
    true false [] { status := 204 } (Or.inr rfl) (.ok { status := 500, text := "oops" })
    (Or.inr ⟨{ status := 500, text := "oops" }, rfl, by decide⟩)

/-- C6: for project type "servicedesk", the service-desk-id lookup call is
always the first outbound call, and if the lookup is rejected the operation
returns a client error (400) and the request-creation call is never issued
(the lookup call remains the only outbound call). -/
theorem servicedesk_lookup_first (a pk : String) (ha : a ≠ "")
    (rt it su de : Option String) (sdres cres : Except String RemoteResp) :
    ((createIssue (some a) pk (some "servicedesk") rt it su de sdres cres).2.head? =
      some (sdLookupCall pk)) ∧
    (∀ sd : RemoteResp, sdres = .ok sd → sd.ok = false →
      createIssue (some a) pk (some "servicedesk") rt it su de sdres cres =
        ({ status := 400, body := some (jerr "Service desk not found") },
         [sdLookupCall pk])) := by
  have haf := strFalsy_some_ne ha
  constructor
  · cases sdres with
    | error e => simp [createIssue, haf]
    | ok sd =>
      simp only [createIssue, haf, Bool.false_eq_true, if_false]
      repeat' split
      all_goals first
        | rfl
        | simp_all
  · rintro sd rfl hok
    simp [createIssue, haf, hok]

theorem servicedesk_lookup_first_witness :
    createIssue (some "Basic abc") "SD1" (some "servicedesk") (some "10") none
      (some "su") (some "de") (.ok { status := 404, text := "nope" })
      (.ok { status := 201 }) =
      ({ status := 400, body := some (jerr "Service desk not found") },
       [sdLookupCall "SD1"]) :=
  (servicedesk_lookup_first "Basic abc" "SD1" (by decide) (some "10") none (some "su")
    (some "de") (.ok { status := 404, text := "nope" }) (.ok { status := 201 })).2
    { status := 404, text := "nope" } rfl (by decide)

/-- C7: for the generic /api/* proxy and any HTTP method, when the remote
response body is non-empty but fails JSON parsing, the caller receives the
remote's status code with a JSON object carrying the raw response text in
both the message and errorMessages fields.  (A real 204 or
content-length-0 response has an empty body, so those header cases are
excluded by hypothesis.) -/
theorem proxy_wraps_unparseable (base method path : String) (body : Json) (a : String)
    (ha : a ≠ "") (r : RemoteResp) (h204 : r.status ≠ 204)
    (hcl : r.contentLength ≠ some "0") (htext : r.text ≠ "") (hj : r.json = none) :
    (apiProxy base method path body (some a) (.ok r)).1 =
      { status := r.status, body := some (.obj
        [("message", .str r.text), ("errorMessages", .arr [.str r.text])]) } := by
  simp [apiProxy, strFalsy_some_ne ha, h204, hcl, htext, hj]

theorem proxy_wraps_unparseable_witness :
    (apiProxy "https://your-domain.atlassian.net" "GET" "/api/rest/api/3/myself"
      (.obj []) (some "Basic abc")
      (.ok { status := 502, text := "Bad gateway", contentLength := some "11" })).1 =
      { status := 502, body := some (.obj
        [("message", .str "Bad gateway"),
         ("errorMessages", .arr [.str "Bad gateway"])]) } :=
  proxy_wraps_unparseable "https://your-domain.atlassian.net" "GET"
    "/api/rest/api/3/myself" (.obj []) "Basic abc" (by decide)
    { status := 502, text := "Bad gateway", contentLength := some "11" }
    (by decide) (by decide) (by decide) rfl

/-- C8: for the generic /api/* proxy and any HTTP method, when the remote
response has no content (status 204, content-length header "0", or empty
body text), the caller receives a bodiless reply whose status code equals
the remote's status code. -/
theorem proxy_bodiless_passthrough (base method path : String) (body : Json) (a : String)
    (ha : a ≠ "") (r : RemoteResp)
    (h : r.status = 204 ∨ r.contentLength = some "0" ∨ r.text = "") :
    (apiProxy base method path body (some a) (.ok r)).1 = { status := r.status } := by
  have haf := strFalsy_some_ne ha
  rcases h with h | h | h
  · simp [apiProxy, haf, h]
  · simp [apiProxy, haf, h]
  · simp [apiProxy, haf, h, apply_ite Prod.fst]

theorem proxy_bodiless_passthrough_witness :
    (apiProxy "https://your-domain.atlassian.net" "DELETE" "/api/rest/api/3/issue/K-1"
      (.obj []) (some "Basic abc") (.ok { status := 204 })).1 = { status := 204 } :=
  proxy_bodiless_passthrough "https://your-domain.atlassian.net" "DELETE"
    "/api/rest/api/3/issue/K-1" (.obj []) "Basic abc" (by decide)
    { status := 204 } (Or.inl rfl)

/-- C9: the add-comment operation with comment text "Hello" and a credential
present issues exactly one outbound call, whose JSON body is a rich-text
document envelope (type doc, version 1) containing exactly one paragraph
node containing exactly one text node whose text is "Hello". -/
theorem comment_roundtrip_hello (a key : String) (ha : a ≠ "")
    (remote : Except String RemoteResp) :
    (addComment (some a) key (some "Hello") remote).2 =
      [{ method := "POST", url := mmn ++ ("/rest/api/3/issue/" ++ key ++ "/comment"),
         body := some (.obj [("body", .obj [("type", .str "doc"), ("version", .num 1),
           ("content", .arr [.obj [("type", .str "paragraph"),
             ("content", .arr [.obj [("type", .str "text"),
               ("text", .str "Hello")]])]])])]) }] := by
  have haf := strFalsy_some_ne ha
  cases remote with
  | error e => simp [addComment, haf, addCommentDoc]
  | ok r =>
    simp only [addComment, haf, Bool.false_eq_true, if_false]
    repeat' split
    all_goals rfl

theorem comment_roundtrip_hello_witness :
    (addComment (some "Basic abc") "KEY-9" (some "Hello") (.ok { status := 201 })).2 =
      [{ method := "POST", url := mmn ++ ("/rest/api/3/issue/" ++ "KEY-9" ++ "/comment"),
         body := some (.obj [("body", .obj [("type", .str "doc"), ("version", .num 1),
           ("content", .arr [.obj [("type", .str "paragraph"),
             ("content", .arr [.obj [("type", .str "text"),
               ("text", .str "Hello")]])]])])]) }] :=
  comment_roundtrip_hello "Basic abc" "KEY-9" (by decide) (.ok { status := 201 })

/-- The outbound call's URL lives under the fixed hard-coded host (it is
the host constant followed by some suffix). -/
def onMmnHost (c : OutboundCall) : Prop := ∃ s, c.url = mmn ++ s

lemma searchUsersLoop_on_mmn (pairs : List (String × Except String RemoteResp)) :
    ∀ c ∈ (searchUsersLoop pairs).2, onMmnHost c := by
  induction pairs with
  | nil => intro c hc; simp [searchUsersLoop] at hc
  | cons p rest ih =>
    obtain ⟨email, resp⟩ := p
    intro c hc
    simp only [searchUsersLoop] at hc
    rcases List.mem_cons.1 hc with h | h
    · subst h; exact ⟨_, rfl⟩
    · exact ih c h

/-- C10: every named operation issues all of its outbound calls to the one
fixed hard-coded host, independent of the configured base URL; only the
generic /api/* proxy targets the configured base URL (the JIRA_DOMAIN value
with its placeholder fallback), so changing the configuration does not
affect any named operation's destination. -/
theorem named_operations_fixed_host (a : String) (ha : a ≠ "") :
    (∀ key c remote cl, cl ∈ (addComment (some a) key c remote).2 → onMmnHost cl) ∧
    (∀ f key remote cl, cl ∈ (addAttachment (some a) f key remote).2.1 → onMmnHost cl) ∧
    (∀ key remote cl, cl ∈ (listAttachments (some a) key remote).2 → onMmnHost cl) ∧
    (∀ key remote cl, cl ∈ (getIssueReporter (some a) key remote).2 → onMmnHost cl) ∧
    (∀ key em sres ures cl,
      cl ∈ (updateIssueReporter (some a) key em sres ures).2 → onMmnHost cl) ∧
    (∀ key s m fr fa ae nres cres cl,
      cl ∈ (sendNotification (some a) key s m fr fa ae nres cres).2 → onMmnHost cl) ∧
    (∀ key t remote cl, cl ∈ (executeTransition (some a) key t remote).2 → onMmnHost cl) ∧
    (∀ pk pt rt it su de sres cres cl,
      cl ∈ (createIssue (some a) pk pt rt it su de sres cres).2 → onMmnHost cl) ∧
    (∀ env method path body remote,
      (apiProxy (jiraDomain env) method path body (some a) remote).2.map OutboundCall.url =
        [jiraDomain env ++ replaceFirst path "/api" ""]) ∧
    jiraDomain none = "https://your-domain.atlassian.net" := by
  have haf := strFalsy_some_ne ha
  refine ⟨?_, ?_, ?_, ?_, ?_, ?_, ?_, ?_, ?_, rfl⟩
  · intro key c remote cl hcl
    cases remote with
    | error e =>
      simp only [addComment, haf, Bool.false_eq_true, if_false, List.mem_singleton] at hcl
      subst hcl; exact ⟨_, rfl⟩
    | ok r =>
      simp only [addComment, haf, Bool.false_eq_true, if_false] at hcl
      repeat' split at hcl
      all_goals simp only [List.mem_singleton] at hcl
      all_goals (subst hcl; exact ⟨_, rfl⟩)
  · intro f key remote cl hcl
    rcases f with _ | f
    · simp [addAttachment, haf] at hcl
    · cases remote with
      | error e =>
        simp only [addAttachment, haf, Bool.false_eq_true, if_false,
          List.mem_singleton] at hcl
        subst hcl; exact ⟨_, rfl⟩
      | ok r =>
        simp only [addAttachment, haf, Bool.false_eq_true, if_false] at hcl
        repeat' split at hcl
        all_goals simp only [List.mem_singleton] at hcl
        all_goals (subst hcl; exact ⟨_, rfl⟩)
  · intro key remote cl hcl
    cases remote with
    | error e =>
      simp only [listAttachments, haf, Bool.false_eq_true, if_false,
        List.mem_singleton] at hcl
      subst hcl; exact ⟨_, rfl⟩
    | ok r =>
      simp only [listAttachments, haf, Bool.false_eq_true, if_false] at hcl
      repeat' split at hcl
      all_goals simp only [List.mem_singleton] at hcl
      all_goals (subst hcl; exact ⟨_, rfl⟩)
  · intro key remote cl hcl
    cases remote with
    | error e =>
      simp only [getIssueReporter, haf, Bool.false_eq_true, if_false,
        List.mem_singleton] at hcl
      subst hcl; exact ⟨_, rfl⟩
    | ok r =>
      simp only [getIssueReporter, haf, Bool.false_eq_true, if_false] at hcl
      repeat' split at hcl
      all_goals simp only [List.mem_singleton] at hcl
      all_goals (subst hcl; exact ⟨_, rfl⟩)
  · intro key em sres ures cl hcl
    simp only [updateIssueReporter, haf, Bool.false_eq_true, if_false] at hcl
    repeat' split at hcl
    all_goals first
      | (simp only [List.mem_singleton] at hcl; subst hcl; exact ⟨_, rfl⟩)
      | (rcases List.mem_cons.1 hcl with h | h
         · subst h; exact ⟨_, rfl⟩
         · simp only [List.mem_singleton] at h; subst h; exact ⟨_, rfl⟩)
      | exact absurd hcl (List.not_mem_nil cl)
  · intro key s m fr fa ae nres cres cl hcl
    simp only [sendNotification, haf, Bool.false_eq_true, if_false] at hcl
    repeat' split at hcl
    all_goals first
      | exact absurd hcl (List.not_mem_nil cl)
      | (rcases List.mem_append.1 hcl with h | h
         · exact searchUsersLoop_on_mmn _ cl h
         · rcases List.mem_cons.1 h with h2 | h2
           · subst h2; exact ⟨_, rfl⟩
           · first
             | (simp only [List.mem_singleton] at h2; subst h2; exact ⟨_, rfl⟩)
             | exact absurd h2 (List.not_mem_nil cl))
  · intro key t remote cl hcl
    cases remote with
    | error e =>
      simp only [executeTransition, haf, Bool.false_eq_true, if_false,
        List.mem_singleton] at hcl
      subst hcl; exact ⟨_, rfl⟩
    | ok r =>
      simp only [executeTransition, haf, Bool.false_eq_true, if_false] at hcl
      repeat' split at hcl
      all_goals simp only [List.mem_singleton] at hcl
      all_goals (subst hcl; exact ⟨_, rfl⟩)
  · intro pk pt rt it su de sres cres cl hcl
    simp only [createIssue, haf, Bool.false_eq_true, if_false] at hcl
    repeat' split at hcl
    all_goals first
      | (simp only [List.mem_singleton] at hcl; subst hcl; exact ⟨_, rfl⟩)
      | (rcases List.mem_cons.1 hcl with h | h
         · subst h; exact ⟨_, rfl⟩
         · simp only [List.mem_singleton] at h; subst h; exact ⟨_, rfl⟩)
  · intro env method path body remote
    cases remote with
    | error e => simp [apiProxy, haf]
    | ok r =>
      simp only [apiProxy, haf, Bool.false_eq_true, if_false]
      repeat' split
      all_goals rfl

theorem named_operations_fixed_host_witness :
    onMmnHost
      { method := "POST",
        url := mmn ++ ("/rest/api/3/issue/" ++ "KEY-10" ++ "/transitions"),
        body := some (.obj [("transition", .obj [("id", .str "31")])]) } :=
  (named_operations_fixed_host "Basic abc" (by decide)).2.2.2.2.2.2.1
    "KEY-10" (some "31") (.ok { status := 204 })
    { method := "POST",
      url := mmn ++ ("/rest/api/3/issue/" ++ "KEY-10" ++ "/transitions"),
      body := some (.obj [("transition", .obj [("id", .str "31")])]) }
    (by simp [executeTransition, strFalsy])
